import Mathlib

/-!
Shallow embedding of `src/wamp/wsjoiner.py` (class `WAMPSessionJoiner`),
the client-side session correlation core of the wamp.py repository.

Modelling conventions:
* Python `dict[int, V]` tables become association lists `List (Nat × V)`
  with operations mirroring Python semantics: `dictGet` (`d[k]` lookup),
  `dictSet` (`d[k] = v`, silently overwriting), `dictPop` (`d.pop(k)`,
  KeyError when absent), `dictDel` (`del d[k]`, KeyError when absent).
* A `concurrent.futures.Future` is modelled by its identity (a `Nat`);
  resolving it (`set_result`) is an observable `Effect` in the output of
  the dispatcher, so that "which holders were resolved" is explicit.
* A caller-supplied callback (a Python `Callable`) is modelled by its
  observable behaviour when invoked: it either returns a value or raises.
* Python exceptions are `Except` errors; the error also carries the state
  at the moment of the raise, since Python mutates `self` in place.
* The reader loop `wait` runs over a finite list of transport events
  (a decoded message, or the receive call raising); the Python loop is
  infinite, so running out of modelled events is a distinct exit marker.
* `messages.Call(...)` etc. construction plus `session.send_message`
  serialization are modelled as building an `OutMessage`; `ws.send` is the
  transport send; the id generator `SessionScopeIDGenerator` (external,
  sequential) is a counter incremented on `next()`.
-/

set_option autoImplicit false

namespace Wamp

/-- Observable behaviour of a caller-supplied callback endpoint when it is
invoked by the dispatcher: it returns a value or raises an exception. -/
inductive EndpointBehavior where
  | returns (y : Nat)
  | raises
  deriving DecidableEq, Repr

/-- `types.RegisterRequest`: the future the register caller blocks on plus
the endpoint to install on confirmation. -/
structure RegisterRequest where
  future : Nat
  endpoint : EndpointBehavior
  deriving DecidableEq, Repr

/-- `types.UnregisterRequest`: the future plus the registration id to remove. -/
structure UnregisterRequest where
  future : Nat
  registration_id : Nat
  deriving DecidableEq, Repr

/-- `types.SubscribeRequest`: the future plus the endpoint to install. -/
structure SubscribeRequest where
  future : Nat
  endpoint : EndpointBehavior
  deriving DecidableEq, Repr

/-- `types.UnsubscribeRequest`: the future plus the subscription id to remove. -/
structure UnsubscribeRequest where
  future : Nat
  subscription_id : Nat
  deriving DecidableEq, Repr

/-- Python dict lookup `d[k]` (as `Option`; `none` models KeyError). -/
def dictGet {V : Type} (d : List (Nat × V)) (k : Nat) : Option V :=
  match d with
  | [] => none
  | (k1, v) :: rest => if k1 = k then some v else dictGet rest k

/-- Python dict assignment `d[k] = v`: overwrites in place when the key is
present, appends otherwise. -/
def dictSet {V : Type} (d : List (Nat × V)) (k : Nat) (v : V) : List (Nat × V) :=
  match d with
  | [] => [(k, v)]
  | (k1, v1) :: rest => if k1 = k then (k, v) :: rest else (k1, v1) :: dictSet rest k v

/-- Python `d.pop(k)`: removes and returns the entry; `none` models KeyError. -/
def dictPop {V : Type} (d : List (Nat × V)) (k : Nat) : Option (V × List (Nat × V)) :=
  match d with
  | [] => none
  | (k1, v) :: rest =>
      if k1 = k then some (v, rest)
      else
        match dictPop rest k with
        | none => none
        | some (v1, rest1) => some (v1, (k1, v) :: rest1)

/-- Python `del d[k]`: removes the entry; `none` models KeyError. -/
def dictDel {V : Type} (d : List (Nat × V)) (k : Nat) : Option (List (Nat × V)) :=
  match dictPop d k with
  | none => none
  | some (_, rest) => some rest

/-- The mutable state of a `WAMPSessionJoiner` instance: the six pending
tables, the two active-resource tables, and the session id generator. -/
structure State where
  call_requests : List (Nat × Nat)
  register_requests : List (Nat × RegisterRequest)
  registrations : List (Nat × EndpointBehavior)
  unregister_requests : List (Nat × UnregisterRequest)
  publish_requests : List (Nat × Nat)
  subscribe_requests : List (Nat × SubscribeRequest)
  subscriptions : List (Nat × EndpointBehavior)
  unsubscribe_requests : List (Nat × UnsubscribeRequest)
  idgen : Nat
  deriving DecidableEq, Repr

/-- State of a freshly joined session: all tables empty. -/
def emptyState : State :=
  { call_requests := []
    register_requests := []
    registrations := []
    unregister_requests := []
    publish_requests := []
    subscribe_requests := []
    subscriptions := []
    unsubscribe_requests := []
    idgen := 0 }

/-- Inbound protocol messages, as decoded by `session.receive` (payloads
other than the correlation ids are opaque to the dispatcher). -/
inductive Message where
  | Registered (request_id registration_id : Nat)
  | UnRegistered (request_id : Nat)
  | Result (request_id : Nat)
  | Invocation (request_id registration_id : Nat)
  | Subscribed (request_id subscription_id : Nat)
  | UnSubscribed (request_id : Nat)
  | Published (request_id : Nat)
  | Event (subscription_id : Nat)
  | Error
  | Unknown
  deriving DecidableEq, Repr

/-- Outgoing protocol messages built by the caller operations (payloads
abstracted away; the Yield carries the endpoint result). -/
inductive OutMessage where
  | callMsg (request_id : Nat)
  | registerMsg (request_id : Nat)
  | unregisterMsg (request_id registration_id : Nat)
  | subscribeMsg (request_id : Nat)
  | unsubscribeMsg (request_id subscription_id : Nat)
  | publishMsg (request_id : Nat)
  | yieldMsg (y : Nat)
  deriving DecidableEq, Repr

/-- Values a future can be resolved with (`set_result` arguments). -/
inductive Outcome where
  | registration (registration_id : Nat)
  | subscription (subscription_id : Nat)
  | resultMsg (request_id : Nat)
  | publishedMsg (request_id : Nat)
  | unsubscribedMsg (request_id : Nat)
  | connectionClosed
  deriving DecidableEq, Repr

/-- Python exceptions that can escape the dispatcher. -/
inductive PyError where
  | keyError (k : Nat)
  | valueError
  | endpointError
  deriving DecidableEq, Repr

/-- Observable side effects of a dispatch step: resolving a future with a
value, failing a future with an exception, or sending on the websocket. -/
inductive Effect where
  | setResult (future : Nat) (v : Outcome)
  | setException (future : Nat)
  | wsSend (m : OutMessage)
  deriving DecidableEq, Repr

/-- Invoking a caller-supplied callback endpoint. -/
def invokeEndpoint : EndpointBehavior → Except PyError Nat
  | .returns y => .ok y
  | .raises => .error .endpointError

/-- `WAMPSessionJoiner.process_incoming_message` (wsjoiner.py lines 70-103),
translated branch for branch. An `Except.error` is a Python exception
escaping the method, carrying the state at the moment of the raise. -/
def process_incoming_message (s : State) (msg : Message) :
    Except (State × PyError) (State × List Effect) :=
  match msg with
  | .Registered request_id registration_id =>
      match dictPop s.register_requests request_id with
      | none => .error (s, .keyError request_id)
      | some (request, rest) =>
          .ok ({ s with
                  register_requests := rest
                  registrations := dictSet s.registrations registration_id request.endpoint },
               [Effect.setResult request.future (Outcome.registration registration_id)])
  | .UnRegistered request_id =>
      match dictPop s.unregister_requests request_id with
      | none => .error (s, .keyError request_id)
      | some (request, rest) =>
          let s1 := { s with unregister_requests := rest }
          match dictDel s1.registrations request.registration_id with
          | none => .error (s1, .keyError request.registration_id)
          | some regs => .ok ({ s1 with registrations := regs }, [])
  | .Result request_id =>
      match dictPop s.call_requests request_id with
      | none => .error (s, .keyError request_id)
      | some (future, rest) =>
          .ok ({ s with call_requests := rest },
               [Effect.setResult future (Outcome.resultMsg request_id)])
  | .Invocation _ registration_id =>
      match dictGet s.registrations registration_id with
      | none => .error (s, .keyError registration_id)
      | some endpoint =>
          match invokeEndpoint endpoint with
          | .error e => .error (s, e)
          | .ok y => .ok (s, [Effect.wsSend (OutMessage.yieldMsg y)])
  | .Subscribed request_id subscription_id =>
      match dictPop s.subscribe_requests request_id with
      | none => .error (s, .keyError request_id)
      | some (request, rest) =>
          .ok ({ s with
                  subscribe_requests := rest
                  subscriptions := dictSet s.subscriptions subscription_id request.endpoint },
               [Effect.setResult request.future (Outcome.subscription subscription_id)])
  | .UnSubscribed request_id =>
      match dictPop s.unsubscribe_requests request_id with
      | none => .error (s, .keyError request_id)
      | some (request, rest) =>
          let s1 := { s with unsubscribe_requests := rest }
          match dictDel s1.subscriptions request.subscription_id with
          | none => .error (s1, .keyError request.subscription_id)
          | some subs =>
              .ok ({ s1 with subscriptions := subs },
                   [Effect.setResult request.future (Outcome.unsubscribedMsg request_id)])
  | .Published request_id =>
      match dictPop s.publish_requests request_id with
      | none => .error (s, .keyError request_id)
      | some (future, rest) =>
          .ok ({ s with publish_requests := rest },
               [Effect.setResult future (Outcome.publishedMsg request_id)])
  | .Event subscription_id =>
      match dictGet s.subscriptions subscription_id with
      | none => .error (s, .keyError subscription_id)
      | some endpoint =>
          match invokeEndpoint endpoint with
          | .error e => .error (s, e)
          | .ok _ => .ok (s, [])
  | .Error => .ok (s, [])
  | .Unknown => .error (s, .valueError)

/-- One step of the transport as seen by the reader loop: `ws.receive`
returns a frame that decodes to a message, or it raises (closure or read
error). -/
inductive TransportEvent where
  | recv (msg : Message)
  | closed
  deriving DecidableEq, Repr

/-- How the reader loop ends. `cleanBreak`: `ws.receive` raised and the
`break` on line 66 ran. `crashed`: `process_incoming_message` raised; the
call on line 68 is outside the try block, so the exception propagates out
of `wait` and terminates the reader thread. `fuelOut`: the modelled event
list was exhausted (the Python loop would keep running). -/
inductive ReaderExit where
  | cleanBreak
  | crashed (e : PyError)
  | fuelOut
  deriving DecidableEq, Repr

/-- `WAMPSessionJoiner.wait` (wsjoiner.py lines 61-68) over a finite list of
transport events: returns the final state, the concatenated dispatch
effects, and how the loop ended. -/
def wait (s : State) : List TransportEvent → State × List Effect × ReaderExit
  | [] => (s, [], ReaderExit.fuelOut)
  | TransportEvent.closed :: _ => (s, [], ReaderExit.cleanBreak)
  | TransportEvent.recv msg :: rest =>
      match process_incoming_message s msg with
      | .error (s1, e) => (s1, [], ReaderExit.crashed e)
      | .ok (s1, effects) =>
          match wait s1 rest with
          | (s2, effects2, ex) => (s2, effects ++ effects2, ex)

/-- The six pending tables, for naming which table an operation records
its entry in. -/
inductive TableName where
  | callT
  | registerT
  | unregisterT
  | subscribeT
  | unsubscribeT
  | publishT
  deriving DecidableEq, Repr

/-- The steps a caller operation performs, in execution order: allocate a
request id (`idgen.next()`), build and serialize the request message
(`messages.X(...)` plus `session.send_message`), record the pending entry
in its table (`self.X_requests[id] = ...`), send over the transport
(`self.ws.send(data)`), and block on the future (`f.result()`). -/
inductive OpEvent where
  | genId (request_id : Nat)
  | buildMsg (m : OutMessage)
  | recordPending (table : TableName) (key : Nat)
  | wsSend (m : OutMessage)
  | blockOn (future : Nat)
  deriving DecidableEq, Repr

/-- `WAMPSessionJoiner.call` (wsjoiner.py lines 105-115): the new state and
the ordered trace of steps. `nf` is the identity of the fresh `Future()`. -/
def call (s : State) (nf : Nat) : State × List OpEvent :=
  let request_id := s.idgen + 1
  let msg := OutMessage.callMsg request_id
  ({ s with
      idgen := request_id
      call_requests := dictSet s.call_requests request_id nf },
   [OpEvent.genId request_id, OpEvent.buildMsg msg,
    OpEvent.recordPending TableName.callT request_id,
    OpEvent.wsSend msg, OpEvent.blockOn nf])

/-- `WAMPSessionJoiner.register` (wsjoiner.py lines 117-125). -/
def register (s : State) (nf : Nat) (endpoint : EndpointBehavior) : State × List OpEvent :=
  let request_id := s.idgen + 1
  let msg := OutMessage.registerMsg request_id
  ({ s with
      idgen := request_id
      register_requests := dictSet s.register_requests request_id ⟨nf, endpoint⟩ },
   [OpEvent.genId request_id, OpEvent.buildMsg msg,
    OpEvent.recordPending TableName.registerT request_id,
    OpEvent.wsSend msg, OpEvent.blockOn nf])

/-- `WAMPSessionJoiner.unregister` (wsjoiner.py lines 127-135);
`registration_id` comes from the caller's `types.Registration`. -/
def unregister (s : State) (nf : Nat) (registration_id : Nat) : State × List OpEvent :=
  let request_id := s.idgen + 1
  let msg := OutMessage.unregisterMsg request_id registration_id
  ({ s with
      idgen := request_id
      unregister_requests := dictSet s.unregister_requests request_id ⟨nf, registration_id⟩ },
   [OpEvent.genId request_id, OpEvent.buildMsg msg,
    OpEvent.recordPending TableName.unregisterT request_id,
    OpEvent.wsSend msg, OpEvent.blockOn nf])

/-- `WAMPSessionJoiner.subscribe` (wsjoiner.py lines 137-145). -/
def subscribe (s : State) (nf : Nat) (endpoint : EndpointBehavior) : State × List OpEvent :=
  let request_id := s.idgen + 1
  let msg := OutMessage.subscribeMsg request_id
  ({ s with
      idgen := request_id
      subscribe_requests := dictSet s.subscribe_requests request_id ⟨nf, endpoint⟩ },
   [OpEvent.genId request_id, OpEvent.buildMsg msg,
    OpEvent.recordPending TableName.subscribeT request_id,
    OpEvent.wsSend msg, OpEvent.blockOn nf])

/-- `WAMPSessionJoiner.unsubscribe` (wsjoiner.py lines 147-155). -/
def unsubscribe (s : State) (nf : Nat) (subscription_id : Nat) : State × List OpEvent :=
  let request_id := s.idgen + 1
  let msg := OutMessage.unsubscribeMsg request_id subscription_id
  ({ s with
      idgen := request_id
      unsubscribe_requests := dictSet s.unsubscribe_requests request_id ⟨nf, subscription_id⟩ },
   [OpEvent.genId request_id, OpEvent.buildMsg msg,
    OpEvent.recordPending TableName.unsubscribeT request_id,
    OpEvent.wsSend msg, OpEvent.blockOn nf])

/-- The `options` argument of `publish`, a Python `dict` or `None`:
`none` is `options=None`; `some none` is a dict without an "acknowledge"
key; `some (some b)` is a dict whose "acknowledge" value has truthiness
`b`. -/
def PublishOptions : Type := Option (Option Bool)

/-- The condition on wsjoiner.py line 163:
`options is not None and options.get("acknowledge", True)`. -/
def acknowledgeRequested : PublishOptions → Bool
  | none => false
  | some none => true
  | some (some b) => b

/-- `WAMPSessionJoiner.publish` (wsjoiner.py lines 157-169): the new state,
the ordered trace of steps, and the future blocked on (`none` when the
method returns immediately without a future, i.e. returns `None`). -/
def publish (s : State) (nf : Nat) (options : PublishOptions) :
    State × List OpEvent × Option Nat :=
  let request_id := s.idgen + 1
  let msg := OutMessage.publishMsg request_id
  if acknowledgeRequested options then
    ({ s with
        idgen := request_id
        publish_requests := dictSet s.publish_requests request_id nf },
     [OpEvent.genId request_id, OpEvent.buildMsg msg,
      OpEvent.recordPending TableName.publishT request_id,
      OpEvent.wsSend msg, OpEvent.blockOn nf],
     some nf)
  else
    ({ s with idgen := request_id },
     [OpEvent.genId request_id, OpEvent.buildMsg msg, OpEvent.wsSend msg],
     none)

/-- A session state with 5 pending calls (futures 101-105) and 2 pending
subscribes (futures 106, 107), the scenario of the spec's
connection-closed draining test. -/
def pendingState : State :=
  { emptyState with
      call_requests := [(1, 101), (2, 102), (3, 103), (4, 104), (5, 105)]
      subscribe_requests :=
        [(6, ⟨106, EndpointBehavior.returns 0⟩), (7, ⟨107, EndpointBehavior.returns 0⟩)]
      idgen := 7 }

/-- C1 counterexample: with 5 pending calls and 2 pending subscribes, a
transport closure makes the reader loop break immediately: the effect list
is empty, so not one of the 7 pending futures is resolved (with
ConnectionClosed or anything else), and all pending entries are still in
their tables when the reader thread exits. This refutes the claim that
every still-pending OutcomeHolder is resolved before the reader exits. -/
theorem C1_counterexample :
    wait pendingState [TransportEvent.closed] = (pendingState, [], ReaderExit.cleanBreak) ∧
    pendingState.call_requests.length = 5 ∧
    pendingState.subscribe_requests.length = 2 :=
  ⟨rfl, rfl, rfl⟩

/-- C1 amended: when `ws.receive` raises (transport closure or read
error), the reader loop breaks at once: the state — including every
pending table — is unchanged, no effect is emitted (no future is resolved
or failed), and the thread exits; still-pending callers remain blocked. -/
theorem C1_amended_close_no_drain (s : State) (rest : List TransportEvent) :
    wait s (TransportEvent.closed :: rest) = (s, [], ReaderExit.cleanBreak) :=
  rfl

/-- A session state with one pending unregister request (request id 4,
future 9, registration id 2) and the matching active registration. -/
def unregState : State :=
  { emptyState with
      unregister_requests := [(4, ⟨9, 2⟩)]
      registrations := [(2, EndpointBehavior.returns 0)]
      idgen := 4 }

/-- C2: evaluating the `UnRegistered` handler at its intended input shows
the bug: the pending entry is removed and the active registration deleted,
but the effect list is empty — `request.future.set_result` is never called
(wsjoiner.py lines 75-77, unlike every sibling handler), so the caller
blocked in `unregister` at `f.result()` is never unblocked. -/
theorem C2_unregistered_never_resolves :
    process_incoming_message unregState (Message.UnRegistered 4) =
      Except.ok ({ unregState with unregister_requests := [], registrations := [] }, []) :=
  rfl

/-- C3 counterexample: `publish("t", options={})` — an options dict with no
acknowledge key, modelled as `some none` — does NOT return immediately: the
acknowledge flag defaults to True on line 163, a pending entry for the new
request id 1 is recorded in the publish table, and the operation blocks on
future 1. This refutes the claim's parenthetical that `options={}` counts
as not requesting acknowledgement. -/
theorem C3_counterexample :
    (publish emptyState 1 (some none)).2.2 = some 1 ∧
    (publish emptyState 1 (some none)).1.publish_requests = [(1, 1)] :=
  ⟨rfl, rfl⟩

/-- C3 amended: for every publish invocation whose options do not request
acknowledgement — `options=None`, or an options dict whose "acknowledge"
value is falsy (NOT `options={}`, which defaults acknowledge to True) —
the operation sends the message and returns immediately without blocking
on any future, and its trace records no pending entry, so the publish
table is untouched. -/
theorem C3_amended_unacknowledged_publish (s : State) (nf : Nat)
    (options : PublishOptions) (h : acknowledgeRequested options = false) :
    publish s nf options =
      ({ s with idgen := s.idgen + 1 },
       [OpEvent.genId (s.idgen + 1), OpEvent.buildMsg (OutMessage.publishMsg (s.idgen + 1)),
        OpEvent.wsSend (OutMessage.publishMsg (s.idgen + 1))],
       none) := by
  simp [publish, h]

/-- Witness for C3: `publish` with `options=None` on the fresh session
state sends and returns immediately, no pending entry, no blocking. -/
theorem C3_witness :
    publish emptyState 0 none =
      ({ emptyState with idgen := 1 },
       [OpEvent.genId 1, OpEvent.buildMsg (OutMessage.publishMsg 1),
        OpEvent.wsSend (OutMessage.publishMsg 1)],
       none) :=
  C3_amended_unacknowledged_publish emptyState 0 none rfl

/-- C9: an inbound Error message is silently ignored (wsjoiner.py lines
100-101): the state — every pending and active table — is unchanged, and
the effect list is empty, so no future is resolved or failed and nothing
is sent on the transport. -/
theorem C9_error_silently_ignored (s : State) :
    process_incoming_message s Message.Error = Except.ok (s, []) :=
  rfl

/-- C10: the blocking behaviour of `publish` is asymmetric in how options
is passed. With `options=None` the message is sent, no pending entry is
recorded, and the method returns None immediately (no future to block on).
With `options={}` (a dict without an acknowledge key) the default True on
line 163 applies: a pending entry is recorded in the publish table and the
method blocks on the fresh future awaiting a Published confirmation. -/
theorem C10_publish_options_asymmetry (s : State) (nf : Nat) :
    publish s nf none =
      ({ s with idgen := s.idgen + 1 },
       [OpEvent.genId (s.idgen + 1), OpEvent.buildMsg (OutMessage.publishMsg (s.idgen + 1)),
        OpEvent.wsSend (OutMessage.publishMsg (s.idgen + 1))],
       none) ∧
    publish s nf (some none) =
      ({ s with
          idgen := s.idgen + 1
          publish_requests := dictSet s.publish_requests (s.idgen + 1) nf },
       [OpEvent.genId (s.idgen + 1), OpEvent.buildMsg (OutMessage.publishMsg (s.idgen + 1)),
        OpEvent.recordPending TableName.publishT (s.idgen + 1),
        OpEvent.wsSend (OutMessage.publishMsg (s.idgen + 1)), OpEvent.blockOn nf],
       some nf) :=
  ⟨rfl, rfl⟩

/-- C4 counterexample: a Result whose request id is in no pending table
(request id 5 on a fresh session) makes `call_requests.pop` raise KeyError;
the dispatch call on line 68 sits outside the try block of `wait`, so the
exception propagates and the reader thread crashes. Nothing is logged or
ignored and the exit is NOT a clean break — refuting the claim that an
unknown request id is non-fatal to the reader thread. -/
theorem C4_counterexample :
    wait emptyState [TransportEvent.recv (Message.Result 5)] =
      (emptyState, [], ReaderExit.crashed (PyError.keyError 5)) :=
  rfl

/-- C4 amended: a Result whose request id is absent from the call-pending
table makes dispatch raise KeyError (UnknownKey); the exception is not
caught or logged — it propagates out of the reader loop (whose try block
wraps only `ws.receive`), terminating the reader thread with the state and
any later transport events unprocessed. -/
theorem C4_amended_unknown_result_crashes_reader (s : State) (request_id : Nat)
    (rest : List TransportEvent)
    (h : dictPop s.call_requests request_id = none) :
    wait s (TransportEvent.recv (Message.Result request_id) :: rest) =
      (s, [], ReaderExit.crashed (PyError.keyError request_id)) := by
  simp [wait, process_incoming_message, h]

/-- Witness for C4: request id 12 is not among the pending calls 1-5 of
`pendingState`; the reader thread crashes on it even with more transport
events queued. -/
theorem C4_witness :
    wait pendingState [TransportEvent.recv (Message.Result 12), TransportEvent.closed] =
      (pendingState, [], ReaderExit.crashed (PyError.keyError 12)) :=
  C4_amended_unknown_result_crashes_reader pendingState 12 [TransportEvent.closed] rfl

/-- A session state with an active registration (id 7) and an active
subscription (id 8) whose callback endpoints raise when invoked. -/
def raisingState : State :=
  { emptyState with
      registrations := [(7, EndpointBehavior.raises)]
      subscriptions := [(8, EndpointBehavior.raises)] }

/-- C5 counterexample: dispatching an Invocation to registration 7, whose
endpoint raises, crashes the reader thread (exit is `crashed`, not a
continue); likewise an Event to subscription 8. The endpoint exception is
neither caught nor logged — there is no try block around the endpoint
calls on lines 83 and 99 nor around dispatch in `wait` — refuting the
claim that endpoint exceptions never terminate the reader thread. -/
theorem C5_counterexample :
    wait raisingState [TransportEvent.recv (Message.Invocation 1 7)] =
      (raisingState, [], ReaderExit.crashed PyError.endpointError) ∧
    wait raisingState [TransportEvent.recv (Message.Event 8)] =
      (raisingState, [], ReaderExit.crashed PyError.endpointError) :=
  ⟨rfl, rfl⟩

/-- C5 amended: an exception raised inside a callback endpoint — an
Invocation endpoint or an Event endpoint — propagates out of
`process_incoming_message` and out of the reader loop, terminating the
reader thread; it is not caught or logged by the dispatcher. -/
theorem C5_amended_endpoint_exception_crashes_reader (s : State)
    (rid regid subid : Nat) (evs1 evs2 : List TransportEvent)
    (h1 : dictGet s.registrations regid = some EndpointBehavior.raises)
    (h2 : dictGet s.subscriptions subid = some EndpointBehavior.raises) :
    wait s (TransportEvent.recv (Message.Invocation rid regid) :: evs1) =
      (s, [], ReaderExit.crashed PyError.endpointError) ∧
    wait s (TransportEvent.recv (Message.Event subid) :: evs2) =
      (s, [], ReaderExit.crashed PyError.endpointError) := by
  constructor <;> simp [wait, process_incoming_message, h1, h2, invokeEndpoint]

/-- Witness for C5: on `raisingState`, both a pending Invocation for
registration 7 and an Event for subscription 8 crash the reader thread,
with further queued transport events never processed. -/
theorem C5_witness :
    wait raisingState [TransportEvent.recv (Message.Invocation 2 7), TransportEvent.closed] =
      (raisingState, [], ReaderExit.crashed PyError.endpointError) ∧
    wait raisingState [TransportEvent.recv (Message.Event 8), TransportEvent.closed] =
      (raisingState, [], ReaderExit.crashed PyError.endpointError) :=
  C5_amended_endpoint_exception_crashes_reader raisingState 2 7 8
    [TransportEvent.closed] [TransportEvent.closed] rfl rfl

/-- Overwrite behaviour of Python dict assignment: setting a key returns a
table in which that key maps to the new value, whether or not it was
present before. -/
theorem dictGet_dictSet {V : Type} (d : List (Nat × V)) (k : Nat) (v : V) :
    dictGet (dictSet d k v) k = some v := by
  induction d with
  | nil => simp [dictSet, dictGet]
  | cons hd tl ih =>
      obtain ⟨k1, v1⟩ := hd
      by_cases h : k1 = k
      · simp [dictSet, dictGet, h]
      · simp [dictSet, dictGet, h, ih]

/-- A session state in which the call-pending table already holds an entry
under key 5 (future 1) while the id generator is about to hand out 5. -/
def dupState : State :=
  { emptyState with call_requests := [(5, 1)], idgen := 4 }

/-- C6 counterexample: on `dupState` the next `call` allocates request id
5, which is already present in the call-pending table mapped to future 1;
the dict assignment on line 112 silently overwrites it with the new future
2 — no DuplicateKey failure occurs (the operation cannot fail at all),
refuting the claim that insertion under a present key fails. -/
theorem C6_counterexample :
    (call dupState 2).1.call_requests = [(5, 2)] :=
  rfl

/-- C6 amended: inserting a pending entry under a key that is already
present silently overwrites the existing entry — plain Python dict
assignment; no DuplicateKey error is raised anywhere in the code. -/
theorem C6_amended_silent_overwrite (s : State) (nf v : Nat)
    (_h : dictGet s.call_requests (s.idgen + 1) = some v) :
    dictGet (call s nf).1.call_requests (s.idgen + 1) = some nf :=
  dictGet_dictSet s.call_requests (s.idgen + 1) nf

/-- Witness for C6: on `dupState`, key 5 held future 1 before the call and
holds the new future 2 after it. -/
theorem C6_witness :
    dictGet (call dupState 2).1.call_requests (dupState.idgen + 1) = some 2 :=
  C6_amended_silent_overwrite dupState 2 1 rfl

/-- C7: dispatching `Registered(request_id, registration_id)` when the
request id is pending removes the pending entry, installs the entry's
endpoint in the active-registrations table under the new registration id,
and resolves the entry's future with a Registration carrying that
registration id (wsjoiner.py lines 71-74). -/
theorem C7_registered_dispatch (s : State) (request_id registration_id : Nat)
    (request : RegisterRequest) (rest : List (Nat × RegisterRequest))
    (h : dictPop s.register_requests request_id = some (request, rest)) :
    process_incoming_message s (Message.Registered request_id registration_id) =
      Except.ok ({ s with
                    register_requests := rest
                    registrations := dictSet s.registrations registration_id request.endpoint },
                 [Effect.setResult request.future (Outcome.registration registration_id)]) := by
  simp [process_incoming_message, h]

/-- A session state with one pending register request (request id 3,
future 11, endpoint returning 5). -/
def regPendingState : State :=
  { emptyState with
      register_requests := [(3, ⟨11, EndpointBehavior.returns 5⟩)]
      idgen := 3 }

/-- Witness for C7: `Registered(3, 9)` on `regPendingState` empties the
register-pending table, installs the endpoint under registration id 9 and
resolves future 11 with Registration(9). -/
theorem C7_witness :
    process_incoming_message regPendingState (Message.Registered 3 9) =
      Except.ok ({ regPendingState with
                    register_requests := []
                    registrations := [(9, EndpointBehavior.returns 5)] },
                 [Effect.setResult 11 (Outcome.registration 9)]) :=
  C7_registered_dispatch regPendingState 3 9 ⟨11, EndpointBehavior.returns 5⟩ [] rfl

/-- C8: every operation that registers a pending entry — call, register,
unregister, subscribe, unsubscribe, and publish with acknowledgement —
performs its steps in the order: allocate request id, build the request
message, record the pending entry in its table, send via the transport,
block on the future. In particular `recordPending` strictly precedes
`wsSend` in every trace, so the pending entry is in its table before the
message bytes are sent. -/
theorem C8_operation_order (s : State) (nf : Nat) (ep : EndpointBehavior)
    (registration_id subscription_id : Nat) (options : PublishOptions)
    (hopt : acknowledgeRequested options = true) :
    (call s nf).2 =
      [OpEvent.genId (s.idgen + 1), OpEvent.buildMsg (OutMessage.callMsg (s.idgen + 1)),
       OpEvent.recordPending TableName.callT (s.idgen + 1),
       OpEvent.wsSend (OutMessage.callMsg (s.idgen + 1)), OpEvent.blockOn nf] ∧
    (register s nf ep).2 =
      [OpEvent.genId (s.idgen + 1), OpEvent.buildMsg (OutMessage.registerMsg (s.idgen + 1)),
       OpEvent.recordPending TableName.registerT (s.idgen + 1),
       OpEvent.wsSend (OutMessage.registerMsg (s.idgen + 1)), OpEvent.blockOn nf] ∧
    (unregister s nf registration_id).2 =
      [OpEvent.genId (s.idgen + 1),
       OpEvent.buildMsg (OutMessage.unregisterMsg (s.idgen + 1) registration_id),
       OpEvent.recordPending TableName.unregisterT (s.idgen + 1),
       OpEvent.wsSend (OutMessage.unregisterMsg (s.idgen + 1) registration_id),
       OpEvent.blockOn nf] ∧
    (subscribe s nf ep).2 =
      [OpEvent.genId (s.idgen + 1), OpEvent.buildMsg (OutMessage.subscribeMsg (s.idgen + 1)),
       OpEvent.recordPending TableName.subscribeT (s.idgen + 1),
       OpEvent.wsSend (OutMessage.subscribeMsg (s.idgen + 1)), OpEvent.blockOn nf] ∧
    (unsubscribe s nf subscription_id).2 =
      [OpEvent.genId (s.idgen + 1),
       OpEvent.buildMsg (OutMessage.unsubscribeMsg (s.idgen + 1) subscription_id),
       OpEvent.recordPending TableName.unsubscribeT (s.idgen + 1),
       OpEvent.wsSend (OutMessage.unsubscribeMsg (s.idgen + 1) subscription_id),
       OpEvent.blockOn nf] ∧
    (publish s nf options).2.1 =
      [OpEvent.genId (s.idgen + 1), OpEvent.buildMsg (OutMessage.publishMsg (s.idgen + 1)),
       OpEvent.recordPending TableName.publishT (s.idgen + 1),
       OpEvent.wsSend (OutMessage.publishMsg (s.idgen + 1)), OpEvent.blockOn nf] := by
  refine ⟨rfl, rfl, rfl, rfl, rfl, ?_⟩
  simp [publish, hopt]

/-- Witness for C8: each operation applied to the fresh session state
(each allocating request id 1, future 3), with publish given an options
dict whose acknowledge value is truthy. -/
theorem C8_witness :
    (call emptyState 3).2 =
      [OpEvent.genId 1, OpEvent.buildMsg (OutMessage.callMsg 1),
       OpEvent.recordPending TableName.callT 1,
       OpEvent.wsSend (OutMessage.callMsg 1), OpEvent.blockOn 3] ∧
    (register emptyState 3 (EndpointBehavior.returns 0)).2 =
      [OpEvent.genId 1, OpEvent.buildMsg (OutMessage.registerMsg 1),
       OpEvent.recordPending TableName.registerT 1,
       OpEvent.wsSend (OutMessage.registerMsg 1), OpEvent.blockOn 3] ∧
    (unregister emptyState 3 6).2 =
      [OpEvent.genId 1, OpEvent.buildMsg (OutMessage.unregisterMsg 1 6),
       OpEvent.recordPending TableName.unregisterT 1,
       OpEvent.wsSend (OutMessage.unregisterMsg 1 6), OpEvent.blockOn 3] ∧
    (subscribe emptyState 3 (EndpointBehavior.returns 0)).2 =
      [OpEvent.genId 1, OpEvent.buildMsg (OutMessage.subscribeMsg 1),
       OpEvent.recordPending TableName.subscribeT 1,
       OpEvent.wsSend (OutMessage.subscribeMsg 1), OpEvent.blockOn 3] ∧
    (unsubscribe emptyState 3 6).2 =
      [OpEvent.genId 1, OpEvent.buildMsg (OutMessage.unsubscribeMsg 1 6),
       OpEvent.recordPending TableName.unsubscribeT 1,
       OpEvent.wsSend (OutMessage.unsubscribeMsg 1 6), OpEvent.blockOn 3] ∧
    (publish emptyState 3 (some (some true))).2.1 =
      [OpEvent.genId 1, OpEvent.buildMsg (OutMessage.publishMsg 1),
       OpEvent.recordPending TableName.publishT 1,
       OpEvent.wsSend (OutMessage.publishMsg 1), OpEvent.blockOn 3] :=
  C8_operation_order emptyState 3 (EndpointBehavior.returns 0) 6 6 (some (some true)) rfl

end Wamp
